import Mathlib

/-!
Verification of the acemagic-ledctl core: frame codec (`ledctl/core/core.py`),
one-shot transport, mode resolution (`ledctl/core/setmode.py`), pattern-loop
scheduling (`ledctl/patterns/*.py`), process guard (`ledctl/cli/setpattern.py`)
and the pattern registry (`ledctl/patterns/__init__.py`), shallowly embedded in
Lean 4.  Human levels and wire bytes are `Nat`; time is `ℚ`; fallible Python
code (raising `ValueError` / `SystemExit`) is embedded as `Except Err`.
-/

set_option autoImplicit false

namespace Ledctl

/-- Error taxonomy: each constructor stands for one of the distinct exception
messages the Python code raises (`ValueError("brightness/speed must be in 1..5")`,
`SystemExit("Unknown mode ...")`, `SystemExit("Unknown pattern: ...")`,
`SystemExit("No CH340 tty found ...")`, serial open failure, serial write
failure, `ModuleNotFoundError`, `SystemExit("Pattern ... has no callable run()")`). -/
inductive Err where
  | invalidLevel
  | unknownMode
  | unknownPattern
  | deviceNotFound
  | openFailed
  | transportWrite
  | moduleNotFound
  | noCallableRun
  deriving DecidableEq

/-- `MODE.RAINBOW` from `core.py`. -/
def MODE_RAINBOW : Nat := 0x01
/-- `MODE.BREATH` from `core.py`. -/
def MODE_BREATH : Nat := 0x02
/-- `MODE.CYCLE` from `core.py`. -/
def MODE_CYCLE : Nat := 0x03
/-- `MODE.OFF` from `core.py`. -/
def MODE_OFF : Nat := 0x04
/-- `MODE_AUTO` from `core.py`. -/
def MODE_AUTO : Nat := 0x05

/-- The dict `LEVEL_TO_WIRE = {1: 0x05, 2: 0x04, 3: 0x03, 4: 0x02, 5: 0x01}`
from `core.py`, as a partial lookup (`none` = key absent). -/
def LEVEL_TO_WIRE (h : Nat) : Option Nat :=
  if h = 1 then some 0x05
  else if h = 2 then some 0x04
  else if h = 3 then some 0x03
  else if h = 4 then some 0x02
  else if h = 5 then some 0x01
  else none

/-- `checksum(mode, bw, sw) = (0xFA + mode + bw + sw) & 0xFF` from `core.py`. -/
def checksum (mode bw sw : Nat) : Nat :=
  (0xFA + mode + bw + sw) &&& 0xFF

/-- A frame is the 5-tuple `(0xFA, mode, bw, sw, checksum)` from `core.py`. -/
abbrev Frame := Nat × Nat × Nat × Nat × Nat

/-- `build_frame` from `core.py`: raises `ValueError` (here `Err.invalidLevel`)
when either human level is not a key of `LEVEL_TO_WIRE`; otherwise returns
`(0xFA, mode, bw, sw, checksum(mode, bw, sw))`.  The mode byte is not
validated here. -/
def build_frame (mode bright_h speed_h : Nat) : Except Err Frame :=
  match LEVEL_TO_WIRE bright_h, LEVEL_TO_WIRE speed_h with
  | some bw, some sw => .ok (0xFA, mode, bw, sw, checksum mode bw sw)
  | _, _ => .error .invalidLevel

/-- The argument of `resolve_mode` in `setmode.py`: a raw `int` or a `str` name. -/
inductive ModeArg where
  | int (n : Nat)
  | str (s : List Char)

/-- The dict `BUILTIN_MODES` from `core.py` as a lookup from a (lower-case)
name to the raw mode byte. -/
def BUILTIN_MODES (key : List Char) : Option Nat :=
  if key == "rainbow".toList then some MODE_RAINBOW
  else if key == "breathing".toList then some MODE_BREATH
  else if key == "cycle".toList then some MODE_CYCLE
  else if key == "off".toList then some MODE_OFF
  else if key == "auto".toList then some MODE_AUTO
  else none

/-- `resolve_mode` from `setmode.py`: an `int` argument is returned unchanged
(no validation); a `str` argument is lower-cased and looked up in
`BUILTIN_MODES`, raising `SystemExit` (here `Err.unknownMode`) on a miss. -/
def resolve_mode : ModeArg → Except Err Nat
  | .int n => .ok n
  | .str s =>
    match BUILTIN_MODES (s.map Char.toLower) with
    | some b => .ok b
    | none => .error .unknownMode

/-- Observable serial-line events of the one-shot send path in `core.py`. -/
inductive Ev where
  | opened
  | wrote (b : Nat)
  | flushed
  | slept
  | closed
  deriving DecidableEq

/-- The byte loop of `send_frame_one_shot`: write each byte, flush, sleep the
inter-byte delay.  `failAt = some i` makes the write of the `i`-th byte raise;
the returned Bool is `false` when a write failed (the loop stops there). -/
def writeBytes (failAt : Option Nat) : List Nat → Nat → List Ev × Bool
  | [], _ => ([], true)
  | b :: rest, i =>
    if failAt = some i then ([], false)
    else
      let (evs, ok) := writeBytes failAt rest (i + 1)
      (.wrote b :: .flushed :: .slept :: evs, ok)

/-- `send_frame_one_shot` from `core.py`, as an event trace.  In source order:
resolve the device (`SystemExit` when none), `build_frame` (which may raise
`ValueError`), open the serial port, then write the frame inside
`try: ... finally: srl.close()`.  `dev` is the already-resolved
`port or find_port()` result; `openOk` tells whether `serial.Serial(...)`
succeeds; `failAt` injects a write failure at the given byte index. -/
def send_frame_one_shot (dev : Option Nat) (mode brightness speed : Nat)
    (openOk : Bool) (failAt : Option Nat) : Except Err Unit × List Ev :=
  match dev with
  | none => (.error .deviceNotFound, [])
  | some _ =>
    match build_frame mode brightness speed with
    | .error e => (.error e, [])
    | .ok (b0, b1, b2, b3, b4) =>
      if openOk then
        let p := writeBytes failAt [b0, b1, b2, b3, b4] 0
        ((if p.2 then .ok () else .error .transportWrite), .opened :: p.1 ++ [.closed])
      else (.error .openFailed, [])

/-- `set_builtin_mode` from `setmode.py`: resolve the mode, then reject
levels outside `(1, 2, 3, 4, 5)` with `SystemExit` (here `Err.invalidLevel`)
before `send_frame_one_shot` is called. -/
def set_builtin_mode (mode : ModeArg) (brightness speed : Nat) (dev : Option Nat)
    (openOk : Bool) (failAt : Option Nat) : Except Err Unit × List Ev :=
  match resolve_mode mode with
  | .error e => (.error e, [])
  | .ok mode_byte =>
    if brightness ∈ [1, 2, 3, 4, 5] ∧ speed ∈ [1, 2, 3, 4, 5] then
      send_frame_one_shot dev mode_byte brightness speed openOk failAt
    else (.error .invalidLevel, [])

/-! ### Pattern-loop scheduling (`patterns/stillblue.py`, `patterns/alarm.py`,
`patterns/breathered.py`)

A loop state is `(t, nxt)`: the current monotonic time and the deadline
variable `nxt`.  Each iteration is parameterized by the duration `w` that the
iteration's send takes. -/

/-- One iteration of the `stillblue.py` / `alarm.py` loop body:
`ctl.set_mode_once(...)` (the send happens at time `s.1` and takes `w`),
then `nxt += _TICK`, then `dt = nxt - time.monotonic()` and
`if dt > 0: time.sleep(dt)`. -/
def stillStep (T : ℚ) (s : ℚ × ℚ) (w : ℚ) : ℚ × ℚ :=
  let t1 := s.1 + w
  let nxt := s.2 + T
  let dt := nxt - t1
  (if 0 < dt then nxt else t1, nxt)

/-- The `stillblue.py` loop run over a list of per-iteration send durations,
starting from `nxt = time.monotonic()` (both components `t0`). -/
def stillRun (T t0 : ℚ) (ws : List ℚ) : ℚ × ℚ :=
  ws.foldl (stillStep T) (t0, t0)

/-- The times at which the `stillblue.py` loop issues its sends (each
iteration sends first, at the current time). -/
def stillSends (T : ℚ) : ℚ × ℚ → List ℚ → List ℚ
  | _, [] => []
  | s, w :: ws => s.1 :: stillSends T (stillStep T s w) ws

/-- One iteration of the `breathered.py` loop body: `dt = nxt - monotonic()`,
`if dt > 0: sleep(dt)`, then `ctl.set_mode_once(...)` (taking `w`), then
`nxt += tick`. -/
def breathStep (tick : ℚ) (s : ℚ × ℚ) (w : ℚ) : ℚ × ℚ :=
  let dt := s.2 - s.1
  let t1 := if 0 < dt then s.2 else s.1
  (t1 + w, s.2 + tick)

/-- The `breathered.py` loop run over per-iteration send durations: after the
initial kick (ending at time `t0`) the code sets `nxt = time.monotonic() + tick`
and enters the loop. -/
def breathRun (tick t0 : ℚ) (ws : List ℚ) : ℚ × ℚ :=
  ws.foldl (breathStep tick) (t0, t0 + tick)

/-! ### Process guard (`cli/setpattern.py`) -/

/-- `needle` is a prefix of `hay` (character-exact). -/
def prefixMatch : List Char → List Char → Bool
  | [], _ => true
  | _ :: _, [] => false
  | a :: as, b :: bs => a == b && prefixMatch as bs

/-- Python's substring containment `needle in hay`. -/
def hasSub (needle : List Char) : List Char → Bool
  | [] => needle.isEmpty
  | c :: rest => prefixMatch needle (c :: rest) || hasSub needle rest

/-- The command-line match of `_list_pattern_pids`:
`"ledctl" in args and " setpattern " in f" {args} " and " setpattern kill" not in args`. -/
def matchesPatternProc (args : List Char) : Bool :=
  hasSub ("ledctl".toList) args
    && hasSub (" setpattern ".toList) (' ' :: args ++ [' '])
    && !(hasSub (" setpattern kill".toList) args)

/-- `_list_pattern_pids` from `cli/setpattern.py` over a parsed process table
(pid, command-line): keep every record other than the caller's own pid whose
command line matches a pattern-loop invocation. -/
def _list_pattern_pids (me : Nat) (table : List (Nat × List Char)) : List Nat :=
  (table.filter (fun r => r.1 != me && matchesPatternProc r.2)).map Prod.fst

/-- The two signals `kill_all_patterns` sends. -/
inductive Sig where
  | sigterm
  | sigkill
  deriving DecidableEq

/-- `kill_all_patterns` from `cli/setpattern.py`: scan (`scan1` is the process
table at the first scan), return `([], 0)` when nothing was found; otherwise
SIGTERM every discovered pid, sleep the grace period, re-scan (`scan2` is the
table after the grace period), SIGKILL every survivor, and return the count of
originally discovered pids.  The result lists the delivered signals in order. -/
def kill_all_patterns (me : Nat) (scan1 scan2 : List (Nat × List Char)) :
    List (Nat × Sig) × Nat :=
  let pids := _list_pattern_pids me scan1
  if pids.isEmpty then ([], 0)
  else
    let survivors := _list_pattern_pids me scan2
    (pids.map (fun p => (p, Sig.sigterm)) ++ survivors.map (fun p => (p, Sig.sigkill)),
      pids.length)

/-! ### Pattern registry (`patterns/__init__.py`) -/

/-- Tags for the `run` callables of the four registered pattern modules. -/
inductive RunFn where
  | stillredRun
  | stillblueRun
  | breatheredRun
  | alarmRun
  deriving DecidableEq

/-- A pattern module as seen by `get_pattern`: its `run` attribute, when it
exists and is callable. -/
structure PatModule where
  run : Option RunFn

/-- Modelled from the spec: the module body `ledctl/patterns/stillred.py` is
not under `src/` (only its `_PATTERNS` registry entry and the CLI usage
examples are); per the spec's PatternRegistry, every registered name maps to a
loop body, so the module exposes a callable `run`. -/
def stillred_module : PatModule := ⟨some RunFn.stillredRun⟩

/-- `stillblue.py` exposes `run(**kwargs)`. -/
def stillblue_module : PatModule := ⟨some RunFn.stillblueRun⟩

/-- `breathered.py` exposes `run(**kwargs)`. -/
def breathered_module : PatModule := ⟨some RunFn.breatheredRun⟩

/-- `alarm.py` exposes `run(**kwargs)`. -/
def alarm_module : PatModule := ⟨some RunFn.alarmRun⟩

/-- The dict `_PATTERNS` from `patterns/__init__.py`: pattern name → relative
module path. -/
def _PATTERNS (name : List Char) : Option (List Char) :=
  if name == "stillred".toList then some ".stillred".toList
  else if name == "stillblue".toList then some ".stillblue".toList
  else if name == "breathered".toList then some ".breathered".toList
  else if name == "alarm".toList then some ".alarm".toList
  else none

/-- `import_module(modname, package="ledctl.patterns")` restricted to the
module paths this package contains. -/
def import_module (modname : List Char) : Option PatModule :=
  if modname == ".stillred".toList then some stillred_module
  else if modname == ".stillblue".toList then some stillblue_module
  else if modname == ".breathered".toList then some breathered_module
  else if modname == ".alarm".toList then some alarm_module
  else none

/-- `get_pattern` from `patterns/__init__.py`: unregistered names raise
`SystemExit` (here `Err.unknownPattern`); otherwise the module is imported and
its callable `run` returned (a missing module or missing/uncallable `run`
would raise, embedded as the two remaining errors). -/
def get_pattern (name : List Char) : Except Err RunFn :=
  match _PATTERNS name with
  | none => .error .unknownPattern
  | some modname =>
    match import_module modname with
    | none => .error .moduleNotFound
    | some mod =>
      match mod.run with
      | some fn => .ok fn
      | none => .error .noCallableRun

/-- Lexicographic (code-point) order on names, as Python string comparison. -/
def lexLe : List Char → List Char → Bool
  | [], _ => true
  | _ :: _, [] => false
  | a :: as, b :: bs =>
    Nat.blt a.toNat b.toNat || (a == b && lexLe as bs)

/-- Insertion into a lexicographically sorted list of names. -/
def insertName (x : List Char) : List (List Char) → List (List Char)
  | [] => [x]
  | y :: ys => if lexLe x y then x :: y :: ys else y :: insertName x ys

/-- `list_patterns` from `patterns/__init__.py`: `sorted(_PATTERNS.keys())`. -/
def list_patterns : List (List Char) :=
  (["stillred".toList, "stillblue".toList, "breathered".toList,
    "alarm".toList]).foldr insertName []

/-! ### Breathered presets (`patterns/breathered.py`) -/

/-- The dict `_PRESETS` from `breathered.py`: user speed selector →
`(device_speed, brightness, period_seconds)`; periods in seconds as exact
rationals (5.000, 4.000, 3.000, 1.800, 1.350). -/
def _PRESETS (s : Nat) : Option (Nat × Nat × ℚ) :=
  if s = 1 then some (1, 4, 5)
  else if s = 2 then some (2, 3, 4)
  else if s = 3 then some (3, 2, 3)
  else if s = 4 then some (4, 1, 9 / 5)
  else if s = 5 then some (5, 1, 27 / 20)
  else none

/-- The preset selection in `breathered.run`:
`_PRESETS.get(speed, _PRESETS[1])`. -/
def breathered_params (speed : Nat) : Nat × Nat × ℚ :=
  (_PRESETS speed).getD (1, 4, 5)

/-- The tick selection in `breathered.run`:
`tick = float(period) if period is not None else preset_period`. -/
def breathered_tick (speed : Nat) (period : Option ℚ) : ℚ :=
  match period with
  | some p => p
  | none => (breathered_params speed).2.2

/-! ### Helper lemmas -/

theorem LEVEL_TO_WIRE_eq_some_iff (x w : Nat) :
    LEVEL_TO_WIRE x = some w ↔ 1 ≤ x ∧ x ≤ 5 ∧ x + w = 6 := by
  unfold LEVEL_TO_WIRE
  split_ifs <;> simp_all <;> omega

theorem LEVEL_TO_WIRE_eq_none_iff (x : Nat) :
    LEVEL_TO_WIRE x = none ↔ ¬(1 ≤ x ∧ x ≤ 5) := by
  unfold LEVEL_TO_WIRE
  split_ifs <;> simp_all
  omega

theorem build_frame_invalidLevel (m b s : Nat)
    (h : ¬(1 ≤ b ∧ b ≤ 5) ∨ ¬(1 ≤ s ∧ s ≤ 5)) :
    build_frame m b s = .error .invalidLevel := by
  rcases h with h | h
  · have hb : LEVEL_TO_WIRE b = none := (LEVEL_TO_WIRE_eq_none_iff b).2 h
    cases hs : LEVEL_TO_WIRE s <;> simp [build_frame, hb, hs]
  · have hs : LEVEL_TO_WIRE s = none := (LEVEL_TO_WIRE_eq_none_iff s).2 h
    cases hb : LEVEL_TO_WIRE b <;> simp [build_frame, hb, hs]

theorem build_frame_ok (m b s bw sw : Nat) (hb : LEVEL_TO_WIRE b = some bw)
    (hs : LEVEL_TO_WIRE s = some sw) :
    build_frame m b s = .ok (0xFA, m, bw, sw, checksum m bw sw) := by
  simp [build_frame, hb, hs]

theorem mem_one_to_five_iff (b : Nat) :
    b ∈ ([1, 2, 3, 4, 5] : List Nat) ↔ 1 ≤ b ∧ b ≤ 5 := by
  simp
  omega

end Ledctl

deriving instance DecidableEq for Except

namespace Ledctl

/-! ### Claims about the frame codec -/

/-- Claim C1: for every mode among the five built-in wire codes and every
brightness and speed in [1,5], `build_frame` returns the 5-tuple
`(0xFA, mode, level_to_wire b, level_to_wire s, (0xFA + mode + level_to_wire b
+ level_to_wire s) mod 256)`; in particular `build_frame(CYCLE, 3, 3) =
(0xFA, 0x03, 0x03, 0x03, 0x03)` and `build_frame(OFF, 1, 1) =
(0xFA, 0x04, 0x05, 0x05, 0x08)`.  Determinism is inherent: the embedding is a
pure function, exactly as the Python code computes from its arguments alone. -/
theorem C1_build_frame_encoding :
    (∀ m ∈ ([ MODE_RAINBOW, MODE_BREATH, MODE_CYCLE, MODE_OFF, MODE_AUTO] : List Nat),
      ∀ b ∈ ([1, 2, 3, 4, 5] : List Nat), ∀ s ∈ ([1, 2, 3, 4, 5] : List Nat),
      build_frame m b s =
        .ok (0xFA, m, (LEVEL_TO_WIRE b).getD 0, (LEVEL_TO_WIRE s).getD 0,
          (0xFA + m + (LEVEL_TO_WIRE b).getD 0 + (LEVEL_TO_WIRE s).getD 0) % 256)) ∧
    build_frame MODE_CYCLE 3 3 = .ok (0xFA, 0x03, 0x03, 0x03, 0x03) ∧
    build_frame MODE_OFF 1 1 = .ok (0xFA, 0x04, 0x05, 0x05, 0x08) := by
  refine ⟨by decide, by decide, by decide⟩

/-- Witness for C1: the quantified part applied at mode `CYCLE`, brightness 2,
speed 5. -/
theorem C1_build_frame_encoding_witness :
    build_frame MODE_CYCLE 2 5 =
      .ok (0xFA, MODE_CYCLE, (LEVEL_TO_WIRE 2).getD 0, (LEVEL_TO_WIRE 5).getD 0,
        (0xFA + MODE_CYCLE + (LEVEL_TO_WIRE 2).getD 0 + (LEVEL_TO_WIRE 5).getD 0) % 256) :=
  C1_build_frame_encoding.1 MODE_CYCLE (by decide) 2 (by decide) 5 (by decide)

/-- Claim C8: `LEVEL_TO_WIRE` is defined exactly on {1..5}, injective, with
image `[0x05, 0x04, 0x03, 0x02, 0x01]` in that order, and strictly antitone:
a larger human level maps to a strictly smaller wire byte. -/
theorem C8_level_to_wire_bijection :
    (∀ x, (∃ w, LEVEL_TO_WIRE x = some w) ↔ 1 ≤ x ∧ x ≤ 5) ∧
    (∀ x y w, LEVEL_TO_WIRE x = some w → LEVEL_TO_WIRE y = some w → x = y) ∧
    (List.range 6).filterMap LEVEL_TO_WIRE = [0x05, 0x04, 0x03, 0x02, 0x01] ∧
    (∀ x y wx wy, x < y → LEVEL_TO_WIRE x = some wx → LEVEL_TO_WIRE y = some wy →
      wy < wx) := by
  refine ⟨?_, ?_, by decide, ?_⟩
  · intro x
    constructor
    · rintro ⟨w, hw⟩
      have := (LEVEL_TO_WIRE_eq_some_iff x w).1 hw
      omega
    · intro hx
      exact ⟨6 - x, (LEVEL_TO_WIRE_eq_some_iff x (6 - x)).2 (by omega)⟩
  · intro x y w hx hy
    have h1 := (LEVEL_TO_WIRE_eq_some_iff x w).1 hx
    have h2 := (LEVEL_TO_WIRE_eq_some_iff y w).1 hy
    omega
  · intro x y wx wy hxy hx hy
    have h1 := (LEVEL_TO_WIRE_eq_some_iff x wx).1 hx
    have h2 := (LEVEL_TO_WIRE_eq_some_iff y wy).1 hy
    omega

/-- Witness for C8: the antitone component applied at levels 1 < 5 (wire
bytes 5 and 1), concluding 1 < 5 on the wire side. -/
theorem C8_level_to_wire_bijection_witness : (1 : Nat) < 5 ∧ (1 : Nat) < 5 :=
  ⟨by decide,
    C8_level_to_wire_bijection.2.2.2 1 5 5 1 (by decide) (by decide) (by decide)⟩

/-- Claim C4: a brightness or speed outside [1,5] makes frame encoding fail
with `InvalidLevel` (for any mode), `set_builtin_mode` rejects it with an
empty event trace (no state change), and the one-shot send path never reaches
the serial open: its trace contains no `opened` event. -/
theorem C4_invalid_level_rejected :
    ∀ b s, ¬(1 ≤ b ∧ b ≤ 5) ∨ ¬(1 ≤ s ∧ s ≤ 5) →
      (∀ m, build_frame m b s = .error .invalidLevel) ∧
      (∀ m dev openOk failAt,
        set_builtin_mode (.int m) b s dev openOk failAt = (.error .invalidLevel, [])) ∧
      (∀ m dev openOk failAt,
        Ev.opened ∉ (send_frame_one_shot dev m b s openOk failAt).2) := by
  intro b s h
  refine ⟨fun m => build_frame_invalidLevel m b s h, ?_, ?_⟩
  · intro m dev openOk failAt
    have hcond : ¬(b ∈ ([1, 2, 3, 4, 5] : List Nat) ∧ s ∈ ([1, 2, 3, 4, 5] : List Nat)) := by
      rw [mem_one_to_five_iff, mem_one_to_five_iff]
      tauto
    have hred : set_builtin_mode (.int m) b s dev openOk failAt =
        if b ∈ ([1, 2, 3, 4, 5] : List Nat) ∧ s ∈ ([1, 2, 3, 4, 5] : List Nat) then
          send_frame_one_shot dev m b s openOk failAt
        else (.error .invalidLevel, []) := rfl
    rw [hred, if_neg hcond]
  · intro m dev openOk failAt
    cases dev with
    | none => simp [send_frame_one_shot]
    | some d => simp [send_frame_one_shot, build_frame_invalidLevel m b s h]

/-- Witness for C4: applied at brightness 0 (below range) with speed 3. -/
theorem C4_invalid_level_rejected_witness :
    build_frame MODE_CYCLE 0 3 = .error .invalidLevel ∧
    set_builtin_mode (.int MODE_CYCLE) 0 3 (some 0) true none =
      (.error .invalidLevel, []) :=
  ⟨(C4_invalid_level_rejected 0 3 (Or.inl (by decide))).1 MODE_CYCLE,
    (C4_invalid_level_rejected 0 3 (Or.inl (by decide))).2.1 MODE_CYCLE (some 0) true none⟩

/-- Claim C5 counterexample: the mode byte `0x99` is outside
{0x01, ..., 0x05}, yet `resolve_mode` passes it through unchanged and
`build_frame` constructs a full frame for it instead of failing — the claim
that `build_frame`/`resolve_mode` reject such mode bytes before a frame is
constructed is false at this input. -/
theorem C5_mode_validation_counterexample :
    resolve_mode (.int 0x99) = .ok 0x99 ∧
    build_frame 0x99 3 3 = .ok (0xFA, 0x99, 0x03, 0x03, 0x99) ∧
    build_frame 0x99 3 3 ≠ .error .unknownMode := by
  refine ⟨rfl, by decide, by decide⟩

/-- Claim C5 as amended: only the string path validates modes — `resolve_mode`
fails with `UnknownMode` exactly on names whose lower-casing is not a key of
`BUILTIN_MODES`, and maps the five registered names to their wire bytes —
while an integer mode argument is returned unvalidated and `build_frame`
builds a frame for any mode byte whenever both levels are valid. -/
theorem C5_unknown_mode_names :
    (∀ n, resolve_mode (.int n) = .ok n) ∧
    (∀ s, BUILTIN_MODES (s.map Char.toLower) = none →
      resolve_mode (.str s) = .error .unknownMode) ∧
    resolve_mode (.str "rainbow".toList) = .ok MODE_RAINBOW ∧
    resolve_mode (.str "breathing".toList) = .ok MODE_BREATH ∧
    resolve_mode (.str "cycle".toList) = .ok MODE_CYCLE ∧
    resolve_mode (.str "off".toList) = .ok MODE_OFF ∧
    resolve_mode (.str "auto".toList) = .ok MODE_AUTO ∧
    (∀ m b s bw sw, LEVEL_TO_WIRE b = some bw → LEVEL_TO_WIRE s = some sw →
      build_frame m b s = .ok (0xFA, m, bw, sw, checksum m bw sw)) := by
  refine ⟨fun n => rfl, ?_, by decide, by decide, by decide, by decide, by decide,
    build_frame_ok⟩
  intro s h
  simp [resolve_mode, h]

/-- Witness for C5's amended theorem: the unknown-name component applied to
the name "purple". -/
theorem C5_unknown_mode_names_witness :
    resolve_mode (.str "purple".toList) = .error .unknownMode :=
  C5_unknown_mode_names.2.1 "purple".toList (by decide)

/-! ### Claims about the pattern-loop scheduler -/

theorem stillStep_snd (T : ℚ) (s : ℚ × ℚ) (w : ℚ) : (stillStep T s w).2 = s.2 + T := rfl

theorem breathStep_snd (tick : ℚ) (s : ℚ × ℚ) (w : ℚ) :
    (breathStep tick s w).2 = s.2 + tick := rfl

theorem foldl_stillStep_snd (T : ℚ) :
    ∀ (ws : List ℚ) (s : ℚ × ℚ),
      (ws.foldl (stillStep T) s).2 = s.2 + ws.length * T := by
  intro ws
  induction ws with
  | nil => intro s; simp
  | cons w ws ih =>
    intro s
    rw [List.foldl_cons, ih, stillStep_snd, List.length_cons]
    push_cast
    ring

theorem foldl_breathStep_snd (tick : ℚ) :
    ∀ (ws : List ℚ) (s : ℚ × ℚ),
      (ws.foldl (breathStep tick) s).2 = s.2 + ws.length * tick := by
  intro ws
  induction ws with
  | nil => intro s; simp
  | cons w ws ih =>
    intro s
    rw [List.foldl_cons, ih, breathStep_snd, List.length_cons]
    push_cast
    ring

/-- Claim C2: the pattern loops advance the deadline variable by exactly one
nominal tick per iteration (`nxt += T`), never recomputing it as `now + T`, so
after N iterations with per-tick work bounded by T the deadline is exactly
`t0 + N*T` in the stillblue/alarm loop shape, and exactly `t0 + (N+1)*T` in
the breathered loop shape (whose first deadline is `t0 + T`): jitter never
accumulates drift. -/
theorem C2_drift_free_deadline :
    ∀ (T t0 : ℚ) (ws : List ℚ), 0 < T → (∀ w ∈ ws, 0 ≤ w ∧ w ≤ T) →
      (stillRun T t0 ws).2 = t0 + ws.length * T ∧
      (breathRun T t0 ws).2 = t0 + (ws.length + 1) * T := by
  intro T t0 ws _ _
  constructor
  · rw [stillRun, foldl_stillStep_snd]
  · rw [breathRun, foldl_breathStep_snd]
    ring

/-- Witness for C2: two ticks of work 1 and 1/2 at tick interval 1. -/
theorem C2_drift_free_deadline_witness :
    (stillRun 1 0 [1, 1 / 2]).2 = 0 + (([1, 1 / 2] : List ℚ).length : ℚ) * 1 ∧
    (breathRun 1 0 [1, 1 / 2]).2 = 0 + ((([1, 1 / 2] : List ℚ).length : ℚ) + 1) * 1 :=
  C2_drift_free_deadline 1 0 [1, 1 / 2] (by norm_num)
    (by intro w hw; fin_cases hw <;> norm_num)

/-- Claim C6 counterexample: with tick 1, start time 0 and a first send that
stalls for 3 time units, the stillblue/alarm loop issues its sends at times
0, 3, 3 — the second and third are back-to-back (gap 0 < one tick) — and
after two iterations the deadline (2) is not strictly after the current time
(3): the code catches up with immediate re-sends instead of skipping the
deadline forward, so the claimed edge-case policy is false at this input. -/
theorem C6_skip_forward_counterexample :
    stillSends 1 (0, 0) [3, 0, 0] = [0, 3, 3] ∧
    ¬ List.Chain' (fun a b => a + 1 ≤ b) (stillSends 1 (0, 0) [3, 0, 0]) ∧
    (stillRun 1 0 [3, 0]).2 ≤ (stillRun 1 0 [3, 0]).1 := by
  have hsends : stillSends 1 (0, 0) [3, 0, 0] = [0, 3, 3] := by
    norm_num [stillSends, stillStep]
  refine ⟨hsends, ?_, by norm_num [stillRun, stillStep]⟩
  intro h
  rw [hsends] at h
  norm_num [List.chain'_cons] at h

/-- Claim C6 as amended: when the advanced deadline is not in the future
(`nxt + T ≤ now`, e.g. after a stall), the loop does not sleep — the next
iteration's send begins immediately after the current send's work — and the
deadline still advances by exactly one tick, never skipping forward; so the
loop performs back-to-back catch-up sends until the deadline overtakes the
clock. -/
theorem C6_catch_up_behavior :
    ∀ (T : ℚ) (s : ℚ × ℚ) (w : ℚ), s.2 + T ≤ s.1 + w →
      (stillStep T s w).1 = s.1 + w ∧ (stillStep T s w).2 = s.2 + T := by
  intro T s w h
  refine ⟨?_, rfl⟩
  unfold stillStep
  simp only
  rw [if_neg (by linarith)]

/-- Witness for C6's amended theorem: the post-stall state of the
counterexample (now 3, deadline 1, tick 1, zero work). -/
theorem C6_catch_up_behavior_witness :
    (stillStep 1 (3, 1) 0).1 = 3 + 0 ∧ (stillStep 1 (3, 1) 0).2 = 1 + 1 :=
  C6_catch_up_behavior 1 (3, 1) 0 (by norm_num)

/-! ### Claim about the one-shot transport -/

/-- Claim C7: every execution of `send_frame_one_shot` that opens the serial
device also closes it — the `closed` event is present and is the last thing
that happens — whether the writes all succeed or a write fails mid-frame. -/
theorem C7_one_shot_closes :
    ∀ dev mode b s openOk failAt,
      Ev.opened ∈ (send_frame_one_shot dev mode b s openOk failAt).2 →
      Ev.closed ∈ (send_frame_one_shot dev mode b s openOk failAt).2 ∧
      (send_frame_one_shot dev mode b s openOk failAt).2.getLast? = some Ev.closed := by
  intro dev mode b s openOk failAt hopen
  cases dev with
  | none => simp [send_frame_one_shot] at hopen
  | some d =>
    cases hbf : build_frame mode b s with
    | error e => simp [send_frame_one_shot, hbf] at hopen
    | ok fr =>
      obtain ⟨b0, b1, b2, b3, b4⟩ := fr
      cases openOk with
      | false => simp [send_frame_one_shot, hbf] at hopen
      | true =>
        have htr : (send_frame_one_shot (some d) mode b s true failAt).2 =
            (Ev.opened :: (writeBytes failAt [b0, b1, b2, b3, b4] 0).1) ++ [Ev.closed] := by
          simp [send_frame_one_shot, hbf]
        rw [htr]
        refine ⟨by simp, ?_⟩
        rw [List.getLast?_concat]

/-- Witness for C7: a write failure injected at byte index 2 of a valid frame
still ends with the device closed. -/
theorem C7_one_shot_closes_witness :
    Ev.closed ∈ (send_frame_one_shot (some 0) MODE_CYCLE 3 3 true (some 2)).2 ∧
    (send_frame_one_shot (some 0) MODE_CYCLE 3 3 true (some 2)).2.getLast? =
      some Ev.closed :=
  C7_one_shot_closes (some 0) MODE_CYCLE 3 3 true (some 2) (by decide)

/-! ### Claims about the process guard -/

theorem mem_list_pattern_pids {me : Nat} {table : List (Nat × List Char)} {p : Nat}
    (h : p ∈ _list_pattern_pids me table) :
    ∃ r ∈ table, r.1 = p ∧ p ≠ me ∧ matchesPatternProc r.2 = true := by
  unfold _list_pattern_pids at h
  rcases List.mem_map.1 h with ⟨r, hr, rfl⟩
  rcases List.mem_filter.1 hr with ⟨hrt, hcond⟩
  rw [Bool.and_eq_true] at hcond
  exact ⟨r, hrt, rfl, bne_iff_ne.1 hcond.1, hcond.2⟩

theorem kill_all_patterns_empty (me : Nat) (scan1 scan2 : List (Nat × List Char))
    (h : _list_pattern_pids me scan1 = []) :
    kill_all_patterns me scan1 scan2 = ([], 0) := by
  simp [kill_all_patterns, h]

theorem kill_all_patterns_nonempty (me : Nat) (scan1 scan2 : List (Nat × List Char))
    (h : _list_pattern_pids me scan1 ≠ []) :
    kill_all_patterns me scan1 scan2 =
      ((_list_pattern_pids me scan1).map (fun p => (p, Sig.sigterm)) ++
        (_list_pattern_pids me scan2).map (fun p => (p, Sig.sigkill)),
        (_list_pattern_pids me scan1).length) := by
  simp [kill_all_patterns, List.isEmpty_iff, h]

theorem filter_sigterm_of_sigterm (l : List Nat) :
    (l.map (fun p => (p, Sig.sigterm))).filter (fun x => x.2 == Sig.sigterm) =
      l.map (fun p => (p, Sig.sigterm)) := by
  induction l with
  | nil => rfl
  | cons a l ih => simp [List.filter, ih]

theorem filter_sigterm_of_sigkill (l : List Nat) :
    (l.map (fun p => (p, Sig.sigkill))).filter (fun x => x.2 == Sig.sigterm) = [] := by
  induction l with
  | nil => rfl
  | cons a l ih =>
    have hb : (Sig.sigkill == Sig.sigterm) = false := rfl
    simp [List.filter_cons, hb, ih]

theorem filter_sigkill_of_sigterm (l : List Nat) :
    (l.map (fun p => (p, Sig.sigterm))).filter (fun x => x.2 == Sig.sigkill) = [] := by
  induction l with
  | nil => rfl
  | cons a l ih =>
    have hb : (Sig.sigterm == Sig.sigkill) = false := rfl
    simp [List.filter_cons, hb, ih]

theorem filter_sigkill_of_sigkill (l : List Nat) :
    (l.map (fun p => (p, Sig.sigkill))).filter (fun x => x.2 == Sig.sigkill) =
      l.map (fun p => (p, Sig.sigkill)) := by
  induction l with
  | nil => rfl
  | cons a l ih => simp [List.filter, ih]

theorem map_fst_map_pair (sig : Sig) (l : List Nat) :
    (l.map (fun p => (p, sig))).map Prod.fst = l := by
  induction l with
  | nil => rfl
  | cons a l ih => simp [ih]

/-- Claim C3: `kill_all_patterns` signals only foreign pattern-loop records —
never the caller's own pid, and an administrative kill invocation never
matches the scan — sending `SIGTERM` to exactly the originally discovered
pids, `SIGKILL` to exactly the survivors of the re-scan after the grace
period, and returning the originally discovered count. -/
theorem C3_kill_all_patterns_guard :
    ∀ me scan1 scan2,
      (∀ args, hasSub (" setpattern kill".toList) args = true →
        matchesPatternProc args = false) ∧
      (∀ p s, (p, s) ∈ (kill_all_patterns me scan1 scan2).1 → p ≠ me) ∧
      (∀ p s, (p, s) ∈ (kill_all_patterns me scan1 scan2).1 →
        ∃ r, (r ∈ scan1 ∨ r ∈ scan2) ∧ r.1 = p ∧ matchesPatternProc r.2 = true) ∧
      ((kill_all_patterns me scan1 scan2).1.filter
          (fun x => x.2 == Sig.sigterm)).map Prod.fst = _list_pattern_pids me scan1 ∧
      (_list_pattern_pids me scan1 ≠ [] →
        ((kill_all_patterns me scan1 scan2).1.filter
            (fun x => x.2 == Sig.sigkill)).map Prod.fst = _list_pattern_pids me scan2) ∧
      (kill_all_patterns me scan1 scan2).2 = (_list_pattern_pids me scan1).length := by
  intro me scan1 scan2
  have hmem : ∀ p s, (p, s) ∈ (kill_all_patterns me scan1 scan2).1 →
      p ∈ _list_pattern_pids me scan1 ∨ p ∈ _list_pattern_pids me scan2 := by
    intro p s hps
    by_cases hp : _list_pattern_pids me scan1 = []
    · rw [kill_all_patterns_empty me scan1 scan2 hp] at hps
      simp at hps
    · rw [kill_all_patterns_nonempty me scan1 scan2 hp] at hps
      rcases List.mem_append.1 hps with h | h
      · rcases List.mem_map.1 h with ⟨q, hq, heq⟩
        exact Or.inl (by injection heq with h1 _; rw [← h1]; exact hq)
      · rcases List.mem_map.1 h with ⟨q, hq, heq⟩
        exact Or.inr (by injection heq with h1 _; rw [← h1]; exact hq)
  refine ⟨?_, ?_, ?_, ?_, ?_, ?_⟩
  · intro args h
    simp only [matchesPatternProc]
    simp
    intro _ _
    exact h
  · intro p s hps
    rcases hmem p s hps with h | h
    · rcases mem_list_pattern_pids h with ⟨r, _, _, hne, _⟩
      exact hne
    · rcases mem_list_pattern_pids h with ⟨r, _, _, hne, _⟩
      exact hne
  · intro p s hps
    rcases hmem p s hps with h | h
    · rcases mem_list_pattern_pids h with ⟨r, hr, h1, _, h3⟩
      exact ⟨r, Or.inl hr, h1, h3⟩
    · rcases mem_list_pattern_pids h with ⟨r, hr, h1, _, h3⟩
      exact ⟨r, Or.inr hr, h1, h3⟩
  · by_cases hp : _list_pattern_pids me scan1 = []
    · rw [kill_all_patterns_empty me scan1 scan2 hp, hp]
      rfl
    · rw [kill_all_patterns_nonempty me scan1 scan2 hp]
      rw [List.filter_append, filter_sigterm_of_sigterm, filter_sigterm_of_sigkill,
        List.append_nil, map_fst_map_pair]
  · intro hp
    rw [kill_all_patterns_nonempty me scan1 scan2 hp]
    rw [List.filter_append, filter_sigkill_of_sigterm, filter_sigkill_of_sigkill,
      List.nil_append, map_fst_map_pair]
  · by_cases hp : _list_pattern_pids me scan1 = []
    · rw [kill_all_patterns_empty me scan1 scan2 hp, hp]
      rfl
    · rw [kill_all_patterns_nonempty me scan1 scan2 hp]

/-- Witness for C3, at the spec's scenario: the caller (pid 100) appears in
the scan next to two foreign pattern loops (201, 202) and one administrative
kill invocation (203); only 201 survives the grace period.  The applied
component concludes that the kill escalation hits exactly the surviving
pid 201. -/
theorem C3_kill_all_patterns_guard_witness :
    ((kill_all_patterns 100
        [(100, ("python3 -m ledctl setpattern alarm").toList),
         (201, ("python3 -m ledctl setpattern stillred -b 1").toList),
         (202, ("ledctl setpattern alarm").toList),
         (203, ("python3 -m ledctl setpattern kill").toList)]
        [(201, ("python3 -m ledctl setpattern stillred -b 1").toList)]).1.filter
        (fun x => x.2 == Sig.sigkill)).map Prod.fst =
      _list_pattern_pids 100
        [(201, ("python3 -m ledctl setpattern stillred -b 1").toList)] :=
  (C3_kill_all_patterns_guard 100
    [(100, ("python3 -m ledctl setpattern alarm").toList),
     (201, ("python3 -m ledctl setpattern stillred -b 1").toList),
     (202, ("ledctl setpattern alarm").toList),
     (203, ("python3 -m ledctl setpattern kill").toList)]
    [(201, ("python3 -m ledctl setpattern stillred -b 1").toList)]).2.2.2.2.1
    (by decide)

/-! ### Claims about the pattern registry -/

/-- Claim C9: `get_pattern` fails with `UnknownPattern` exactly when the name
is not a registered key of `_PATTERNS`, and every name `list_patterns`
returns (alarm, breathered, stillblue, stillred, in sorted order) resolves to
that pattern module's callable `run` — every listed name is runnable.  The
`stillred` module body is modelled from the spec (see `stillred_module`). -/
theorem C9_pattern_lookup :
    (∀ name, get_pattern name = .error .unknownPattern ↔ _PATTERNS name = none) ∧
    list_patterns = [ "alarm".toList, "breathered".toList,
      "stillblue".toList, "stillred".toList] ∧
    get_pattern ("alarm".toList) = .ok RunFn.alarmRun ∧
    get_pattern ("breathered".toList) = .ok RunFn.breatheredRun ∧
    get_pattern ("stillblue".toList) = .ok RunFn.stillblueRun ∧
    get_pattern ("stillred".toList) = .ok RunFn.stillredRun := by
  refine ⟨?_, by decide, by decide, by decide, by decide, by decide⟩
  intro name
  unfold get_pattern _PATTERNS
  split_ifs <;> decide

/-- Witness for C9: the lookup-failure equivalence applied to the
unregistered name "disco". -/
theorem C9_pattern_lookup_witness :
    get_pattern ("disco".toList) = .error .unknownPattern :=
  (C9_pattern_lookup.1 ("disco".toList)).2 (by decide)

/-! ### Claims about the breathered presets -/

/-- Claim C10: for a speed selector outside {1,...,5} the breathered pattern
does not fail: `_PRESETS.get(speed, _PRESETS[1])` silently falls back to
preset 1 (device speed 1, brightness 4, 5-second tick); each selector in
{1,...,5} yields exactly its table triple (periods 5, 4, 3, 1.8 = 9/5,
1.35 = 27/20 seconds), the tick is the preset period when no override is
given, and the periods are strictly decreasing in the selector. -/
theorem C10_breathered_presets :
    (∀ s, ¬(1 ≤ s ∧ s ≤ 5) → breathered_params s = (1, 4, 5)) ∧
    breathered_params 1 = (1, 4, 5) ∧
    breathered_params 2 = (2, 3, 4) ∧
    breathered_params 3 = (3, 2, 3) ∧
    breathered_params 4 = (4, 1, 9 / 5) ∧
    breathered_params 5 = (5, 1, 27 / 20) ∧
    (∀ s, breathered_tick s none = (breathered_params s).2.2) ∧
    (∀ s t, s ∈ ([1, 2, 3, 4, 5] : List Nat) → t ∈ ([1, 2, 3, 4, 5] : List Nat) →
      s < t → (breathered_params t).2.2 < (breathered_params s).2.2) := by
  refine ⟨?_, by norm_num [breathered_params, _PRESETS],
    by norm_num [breathered_params, _PRESETS], by norm_num [breathered_params, _PRESETS],
    by norm_num [breathered_params, _PRESETS], by norm_num [breathered_params, _PRESETS],
    fun s => rfl, ?_⟩
  · intro s h
    unfold breathered_params _PRESETS
    split_ifs <;> first | rfl | omega
  · intro s t hs ht hst
    fin_cases hs <;> fin_cases ht <;>
      first
        | omega
        | norm_num [breathered_params, _PRESETS]

/-- Witness for C10: the fallback applied at selector 0 and the strict period
decrease applied at selectors 4 < 5. -/
theorem C10_breathered_presets_witness :
    breathered_params 0 = (1, 4, 5) ∧
    (breathered_params 5).2.2 < (breathered_params 4).2.2 :=
  ⟨C10_breathered_presets.1 0 (by omega),
    C10_breathered_presets.2.2.2.2.2.2.2 4 5 (by decide) (by decide) (by decide)⟩

end Ledctl
